import Mathlib

/-!
Verification of the msdatacurator repository against its specification.

The development shallowly embeds the two source files:

* `src/msdatacurator/FTPDirectory.py` — identifier validation (`_validate_id`),
  metadata resolution with on-disk caching (`metadata`), FTP-URL resolution by
  rewrite-and-probe (`url`), and the sitemap listing (`list_projects`);
* `src/msdatacurator/PRIDEUtility.py` — the archive walk that builds the
  dataset-path index (`_load_dataset_paths`), the download routine
  (`download_dataset`), and the CSV dump (`write_datasets_to_csv`).

Remote protocols are modelled as explicit function-valued worlds
(`RemoteFS`, `FetchOutcome`): a directory listing either yields a list of
entry names or fails (raising, in Python, an exception), and a binary
retrieval either succeeds or fails.  The local filesystem of a download run
starts empty except for the directory the code creates; downloaded file
names are tracked as a duplicate-free list.  Python exceptions are modelled
with `Except`/`Option PyErr`: an exception that escapes a function is an
`Except.error`, an exception caught and printed inside it is recorded in a
result field.
-/

namespace MSDataCurator

/-- Python `str.lower()` (ASCII case mapping suffices for the data handled). -/
def pyLower (s : String) : String := ⟨s.data.map Char.toLower⟩

/-- Python `str.upper()` (ASCII case mapping suffices for the data handled). -/
def pyUpper (s : String) : String := ⟨s.data.map Char.toUpper⟩

/-- Python `s.endswith(t)`: `t` is a suffix of `s` (case-sensitive). -/
def pyEndsWith (s t : String) : Bool := t.data.isSuffixOf s.data

/-- Python `s[:-n]` for `n > 0`: drop the last `n` characters (empty result
when `n` is at least the length, as in Python). -/
def pyDropRight (s : String) (n : Nat) : String := ⟨s.data.take (s.data.length - n)⟩

/-- Python `p.split("/")[-1]`, which is also `os.path.basename(p)` on POSIX:
the characters after the last slash (the whole string when there is none). -/
def lastSegment (s : String) : String :=
  ⟨(s.data.reverse.takeWhile (fun c => c != '/')).reverse⟩

/-- Python `os.path.dirname(p)` on POSIX: everything before the last slash,
with trailing slashes stripped unless the head is nothing but slashes. -/
def pyDirname (s : String) : String :=
  let l := s.data
  let head := l.take (l.length - (l.reverse.takeWhile (fun c => c != '/')).length)
  if head.isEmpty || head.all (fun c => c == '/') then ⟨head⟩
  else ⟨(head.reverse.dropWhile (fun c => c == '/')).reverse⟩

/-- Python `os.path.join(a, b)` on POSIX: an absolute second component
discards the first, an empty or slash-terminated first component is used
as-is, otherwise a slash is inserted. -/
def pyJoin (a b : String) : String :=
  if b.data.head? = some '/' then b
  else if a = "" then b
  else if a.data.getLast? = some '/' then a ++ b
  else a ++ "/" ++ b

/-- Python string comparison on two character lists: lexicographic by code
point (`a <= b`). -/
def listCharLe : List Char → List Char → Bool
  | [], _ => true
  | _ :: _, [] => false
  | a :: as, b :: bs =>
    if a.toNat < b.toNat then true
    else if b.toNat < a.toNat then false
    else listCharLe as bs

/-- Python `a <= b` on strings: lexicographic by code point. -/
def strLe (a b : String) : Bool := listCharLe a.data b.data

/-- The relation form of `strLe`, for use with the sorting library. -/
def strLeRel (a b : String) : Prop := strLe a b = true

instance : DecidableRel strLeRel := fun a b => inferInstanceAs (Decidable (strLe a b = true))

/-- A Python `dict` over strings, as an association list in insertion order:
assigning to an existing key overwrites in place, a new key is appended. -/
def dictInsert (m : List (String × String)) (k v : String) : List (String × String) :=
  if m.any (fun p => p.1 == k) then m.map (fun p => if p.1 == k then (k, v) else p)
  else m ++ [(k, v)]

/-- Python `m.get(k)`: the value at `k`, or `None` when absent. -/
def dictGet (m : List (String × String)) (k : String) : Option String :=
  (m.find? (fun p => p.1 == k)).map (fun p => p.2)

/-- The Python exceptions the two modules can raise. -/
inductive PyErr : Type
  /-- Python `AttributeError`, from calling `.get` on `None`. -/
  | attributeError
  /-- Python `NameError`, from referencing an unbound name. -/
  | nameError (missing : String)
  /-- any `ftplib` failure: login, `cwd`, `nlst` or `retrbinary`. -/
  | ftpError
  /-- Python `ValueError`, from an unsupported download format. -/
  | valueError (msg : String)
  /-- a local `open` failure (missing parent directory). -/
  | ioError
  /-- Python `gzip.BadGzipFile` while decompressing. -/
  | gzipError
  /-- Python `AssertionError`, from `assert self.fetch`. -/
  | assertionError
  /-- Python `requests.ConnectionError`. -/
  | connectionError
  /-- Python `requests.HTTPError` carrying the status code. -/
  | httpError (code : Nat)
deriving DecidableEq, Repr

/-! ### FTPDirectory.py -/

/-- The test `re.match("P[RX]D[0-9]{6}", s)` on the character list of `s`:
`re.match` anchors at the start only, so the six digits may be followed by
arbitrary further characters. -/
def idMatchList : List Char → Bool
  | p :: x :: d :: rest =>
    (p == 'P') && (x == 'R' || x == 'X') && (d == 'D') &&
      ((rest.take 6).length == 6) && (rest.take 6).all Char.isDigit
  | _ => false

/-- The test `re.match("P[RX]D[0-9]{6}", s)` viewed as a Boolean test on strings. -/
def matchesIdAtStart (s : String) : Bool := idMatchList s.data

/-- Embeds `FTPDirectory._validate_id`: uppercase the input, test it against the
pattern, return the uppercased identifier or raise `ValueError`. -/
def validateId (identifier : String) : Except String String :=
  let idU := pyUpper identifier
  if matchesIdAtStart idU then Except.ok idU
  else Except.error "Malformed PRIDE identifier."

/-- The identifier pattern read as the claims read it, as a whole-string
match: `P`, then `R` or `X`, then `D`, then exactly six digits and nothing
else. -/
def isFullIdentifier (s : String) : Bool :=
  match s.data with
  | [p, x, d, d1, d2, d3, d4, d5, d6] =>
    (p == 'P') && (x == 'R' || x == 'X') && (d == 'D') &&
      [d1, d2, d3, d4, d5, d6].all Char.isDigit
  | _ => false

/-- The prefix shape of a character list accepted by `re.match`: the claims'
pattern followed by arbitrary residue. -/
def IdPrefixShape (t : String) : Prop :=
  ∃ x ds rest, t.data = 'P' :: x :: 'D' :: (ds ++ rest) ∧
    (x = 'R' ∨ x = 'X') ∧ ds.length = 6 ∧ ∀ c ∈ ds, c.isDigit = true

/-- The rewrite rules of `FTPDirectory.url`:
`fixes = [("", ""), ("/data/", "-"), ("pride.", "")]`. -/
def prideFixes : List (String × String) := [("", ""), ("/data/", "-"), ("pride.", "")]

/-- The loop of `FTPDirectory.url`: apply each fix in turn to the current
URL (the rewrites accumulate), probe the rewritten URL, return the first
one that probes successfully, and keep the last probe failure to re-raise
once the fixes are exhausted.  `probe u = none` means the HEAD request
succeeded; `probe u = some e` is an `HTTPError`.  The error value `none`
stands for the unbound `last_error` that Python would hit if the fix list
were empty (it never is). -/
def resolveUrlAux {E : Type} (probe : String → Option E) :
    List (String × String) → String → Option E → Except (Option E) String
  | [], _, lastErr => Except.error lastErr
  | fix :: rest, url, _ =>
    let url2 := url.replace fix.1 fix.2
    match probe url2 with
    | none => Except.ok url2
    | some e => resolveUrlAux probe rest url2 (some e)

/-- Embeds `FTPDirectory.url`, applied to the candidate URL extracted from the
metadata link field. -/
def resolveUrl {E : Type} (probe : String → Option E) (url : String) :
    Except (Option E) String :=
  resolveUrlAux probe prideFixes url none

/-- The three candidate URLs the loop probes, in order: the identity
rewrite, then each further rewrite applied on top of the previous one. -/
def urlCandidates (url : String) : List String :=
  let c0 := url.replace "" ""
  let c1 := c0.replace "/data/" "-"
  let c2 := c1.replace "pride." ""
  [c0, c1, c2]

/-- The specification's description of URL resolution: the first candidate
that probes successfully, otherwise the failure of the last candidate. -/
def urlSpec {E : Type} (probe : String → Option E) (url : String) :
    Except (Option E) String :=
  match (urlCandidates url).find? (fun c => (probe c).isNone) with
  | some c => Except.ok c
  | none => Except.error (probe ((urlCandidates url).getLastD url))

/-- The outcome of the single REST `get` call `metadata` may make. -/
inductive FetchOutcome : Type
  /-- status 200 with the given JSON body. -/
  | success (body : String)
  /-- Python `requests.ConnectionError`. -/
  | connFailure
  /-- non-200 status, turned into `requests.HTTPError` by `get`. -/
  | httpFailure (code : Nat)
deriving DecidableEq, Repr

/-- What `FTPDirectory.metadata` produces: the metadata value returned, the
cache file content afterwards (`none` = no file), and whether the REST
fetch was attempted at all. -/
structure MetaResult where
  value : String
  cache : Option String
  fetchAttempted : Bool
deriving DecidableEq, Repr

/-- The `try` body of `FTPDirectory.metadata`: when the cache file exists,
`assert self.fetch`; then fetch and write the cache.  The pair is the
fetched value and the new cache content. -/
def metadataTry (fetch : Bool) (cache : Option String) (net : FetchOutcome) :
    Except PyErr (String × Option String) :=
  if cache.isSome && !fetch then Except.error PyErr.assertionError
  else
    match net with
    | FetchOutcome.success body => Except.ok (body, some body)
    | FetchOutcome.connFailure => Except.error PyErr.connectionError
    | FetchOutcome.httpFailure n => Except.error (PyErr.httpError n)

/-- Embeds `FTPDirectory.metadata`: run the `try` body; catch only `AssertionError`
and `ConnectionError`, re-raising them when no cache file exists and
reading the cache otherwise; let every other exception propagate.
`fetchAttempted` records whether control reached the REST call. -/
def metadata (fetch : Bool) (cache : Option String) (net : FetchOutcome) :
    Except PyErr MetaResult :=
  match metadataTry fetch cache net with
  | Except.ok (v, c) => Except.ok ⟨v, c, true⟩
  | Except.error e =>
    if e = PyErr.assertionError ∨ e = PyErr.connectionError then
      match cache with
      | none => Except.error e
      | some c => Except.ok ⟨c, some c, decide (e = PyErr.connectionError)⟩
    else Except.error e

/-- The amended cache policy, stated directly from the corrected spec text:
with a cache present and no fresh fetch requested, the cache is read and no
fetch happens; with a fetch requested or no cache present, the fetch runs
and overwrites the cache on success; a connection failure falls back to the
cache when one exists and propagates when none does; a non-success HTTP
response propagates regardless. -/
def metadataAmended (fetch : Bool) (cache : Option String) (net : FetchOutcome) :
    Except PyErr MetaResult :=
  match cache, fetch with
  | some c, false => Except.ok ⟨c, some c, false⟩
  | some c, true =>
    match net with
    | FetchOutcome.success b => Except.ok ⟨b, some b, true⟩
    | FetchOutcome.connFailure => Except.ok ⟨c, some c, true⟩
    | FetchOutcome.httpFailure n => Except.error (PyErr.httpError n)
  | none, _ =>
    match net with
    | FetchOutcome.success b => Except.ok ⟨b, some b, true⟩
    | FetchOutcome.connFailure => Except.error PyErr.connectionError
    | FetchOutcome.httpFailure n => Except.error (PyErr.httpError n)

/-- Embeds `list_projects`, applied to the lines of the sitemap response body:
take the trailing path segment of each line, keep those accepted by
`re.match("P[RX]D[0-9]{6}", ...)`, and sort ascending (Python `list.sort`
on strings is ascending lexicographic by code point). -/
def listProjects (lines : List String) : List String :=
  let res := lines.map lastSegment
  let projects := res.filter (fun p => matchesIdAtStart p)
  List.insertionSort strLeRel projects

/-! ### PRIDEUtility.py -/

/-- The remote FTP world a `PRIDEUtility` run sees.  `connectOk` models the
`FTP(host)` constructor (it connects; its failure is raised outside every
`try` in the source).  `nlst p` is a directory listing of `p` (`none` = the
call raised); it also stands for the `login`/`cwd` preceding it, whose
failures Python catches in the same handlers.  `retr f` is `retrbinary` on
`f`: `none` = the call raised, `some g` = success with `g` recording
whether the received bytes are valid gzip data. -/
structure RemoteFS where
  connectOk : Bool
  nlst : String → Option (List String)
  retr : String → Option Bool

/-- Record one level of datasets into the index:
`dataset_paths[os.path.basename(dataset)] = dataset`. -/
def insertDatasets (acc : List (String × String)) (datasets : List String) :
    List (String × String) :=
  datasets.foldl (fun a d => dictInsert a (lastSegment d) d) acc

/-- The index loop of `_load_dataset_paths`: list each index directory and
record its datasets.  A listing failure raises inside the one `try` that
wraps the whole walk, so the entries recorded so far survive and the rest
of the loop is abandoned; the raised error is returned alongside. -/
def walkIndices (fs : RemoteFS) : List String → List (String × String) →
    List (String × String) × Option PyErr
  | [], acc => (acc, none)
  | idx :: rest, acc =>
    match fs.nlst idx with
    | none => (acc, some PyErr.ftpError)
    | some ds => walkIndices fs rest (insertDatasets acc ds)

/-- The year loop of `_load_dataset_paths`: only the year `"2010"` is
descended into; its index listing failure likewise aborts the remainder. -/
def walkYears (fs : RemoteFS) (ftpPath : String) : List String → List (String × String) →
    List (String × String) × Option PyErr
  | [], acc => (acc, none)
  | y :: rest, acc =>
    if y = "2010" then
      match fs.nlst (ftpPath ++ "/" ++ y) with
      | none => (acc, some PyErr.ftpError)
      | some idxs =>
        match walkIndices fs idxs acc with
        | (acc2, none) => walkYears fs ftpPath rest acc2
        | (acc2, some e) => (acc2, some e)
    else walkYears fs ftpPath rest acc

/-- Embeds `PRIDEUtility._load_dataset_paths` for a fresh instance: connect
(`FTP(host)` raising outside the `try`), then inside the `try` list the
root (standing also for `login`/`cwd`) and walk years, indices and
datasets.  Any exception inside the `try` is caught and printed — returned
here as the `Option PyErr` component — never propagated. -/
def loadDatasetPaths (fs : RemoteFS) (ftpPath : String) :
    Except PyErr (List (String × String) × Option PyErr) :=
  if fs.connectOk then
    Except.ok (match fs.nlst ftpPath with
      | none => ([], some PyErr.ftpError)
      | some years => walkYears fs ftpPath years [])
  else Except.error PyErr.ftpError

/-- The local files written and remote files transferred so far by the
download loop. `localFiles` is the set of file paths created locally,
kept duplicate-free. -/
structure LoopState where
  transferred : List String
  localFiles : List String
deriving DecidableEq, Repr

/-- Create a file path: a no-op when the path already exists (Python
`open(..., "wb")` truncates in place). -/
def addFile (l : List String) (x : String) : List String :=
  if x ∈ l then l else l ++ [x]

/-- One iteration of the transfer loop of `download_dataset` over a matched
filename `f`: compute the local path (nested under `generated` exactly when
the string `"generated"` occurred in the unfiltered top-level listing),
open it for writing — which fails when its parent directory is not the one
directory `os.makedirs` created — retrieve the remote file, and for the
`mgf.gz` format decompress in place (writing the name without its last
three characters, then removing the compressed file) when the local name
ends with the lowercase suffix `.mgf.gz`; invalid gzip data raises after
the output file was created. -/
def transferOne (fs : RemoteFS) (fmtLower : String) (genLocal : Bool) (localDir : String)
    (st : LoopState) (f : String) : LoopState × Option PyErr :=
  let lf := if genLocal then pyJoin (pyJoin localDir "generated") f else pyJoin localDir f
  if pyDirname lf = localDir then
    let st1 : LoopState := ⟨st.transferred, addFile st.localFiles lf⟩
    match fs.retr f with
    | none => (st1, some PyErr.ftpError)
    | some gzOk =>
      let st2 : LoopState := ⟨st1.transferred ++ [f], st1.localFiles⟩
      if fmtLower == "mgf.gz" && pyEndsWith lf ".mgf.gz" then
        if gzOk then
          (⟨st2.transferred, (addFile st2.localFiles (pyDropRight lf 3)).erase lf⟩, none)
        else
          (⟨st2.transferred, addFile st2.localFiles (pyDropRight lf 3)⟩, some PyErr.gzipError)
      else (st2, none)
  else (st, some PyErr.ioError)

/-- The transfer loop: run `transferOne` over the filtered filenames,
stopping at the first exception (which `download_dataset` catches). -/
def transferAll (fs : RemoteFS) (fmtLower : String) (genLocal : Bool) (localDir : String) :
    List String → LoopState → LoopState × Option PyErr
  | [], st => (st, none)
  | f :: rest, st =>
    match transferOne fs fmtLower genLocal localDir st f with
    | (st2, some e) => (st2, some e)
    | (st2, none) => transferAll fs fmtLower genLocal localDir rest st2

/-- The `for file in all_files` loop of `download_dataset`: the `files`
variable starts unbound (`none`) and is reassigned on every iteration — to
the listing of the `generated` subdirectory when the entry ends with
`"generated"` case-insensitively (the `cwd`/`nlst` there may raise), and
back to the unchanged top-level listing otherwise. -/
def selectFilesAux (fs : RemoteFS) (genPath : String) (allFiles : List String) :
    List String → Option (List String) → Option (List String) × Option PyErr
  | [], acc => (acc, none)
  | f :: rest, acc =>
    if pyEndsWith (pyLower f) "generated" then
      match fs.nlst genPath with
      | none => (acc, some PyErr.ftpError)
      | some g => selectFilesAux fs genPath allFiles rest (some g)
    else selectFilesAux fs genPath allFiles rest (some allFiles)

/-- The listing-selection phase of `download_dataset`, run over the
top-level listing with the fixed subdirectory path
`os.path.join(dataset_path, "generated")`. -/
def selectFiles (fs : RemoteFS) (dsPath : String) (allFiles : List String) :
    Option (List String) × Option PyErr :=
  selectFilesAux fs (pyJoin dsPath "generated") allFiles allFiles none

/-- The format dispatch of `download_dataset`: the filename suffix filtered
for, or `none` for the `ValueError` branch. -/
def suffixFor (fmtLower : String) : Option String :=
  if fmtLower = "raw" then some ".raw"
  else if fmtLower = "mgf" then some ".mgf"
  else if fmtLower = "mgf.gz" then some ".mgf.gz"
  else none

/-- The observable outcome of one `download_dataset` call: the returned
Boolean, the `filtered_files` value, the remote files actually retrieved,
the local files present afterwards, how many FTP sessions were opened, and
the exceptions caught and printed inside the call. -/
structure DownloadResult where
  success : Bool
  filtered : List String
  transferred : List String
  localFiles : List String
  sessions : Nat
  errors : List PyErr
deriving DecidableEq, Repr

/-- Embeds `PRIDEUtility.download_dataset`.  Here `datasetPaths` is the
`self.dataset_paths` field: `none` is the never-built sentinel, on which
`.get` raises `AttributeError` outside any handler.  A missing (or falsy)
path returns `False` before any FTP session is opened.  Otherwise one
session is opened and everything inside the `try` — listing, `generated`
handling, format dispatch, transfers, decompression — converts any
exception into a printed error and a `False` return. -/
def downloadDataset (fs : RemoteFS) (datasetPaths : Option (List (String × String)))
    (idf fmt : String) : Except PyErr DownloadResult :=
  match datasetPaths with
  | none => Except.error PyErr.attributeError
  | some m =>
    match dictGet m idf with
    | none => Except.ok ⟨false, [], [], [], 0, []⟩
    | some dsPath =>
      if dsPath = "" then Except.ok ⟨false, [], [], [], 0, []⟩
      else if fs.connectOk then
        match fs.nlst dsPath with
        | none => Except.ok ⟨false, [], [], [], 1, [PyErr.ftpError]⟩
        | some allFiles =>
          match selectFiles fs dsPath allFiles with
          | (_, some e) => Except.ok ⟨false, [], [], [], 1, [e]⟩
          | (filesOpt, none) =>
            match suffixFor (pyLower fmt) with
            | none => Except.ok ⟨false, [], [], [], 1,
                [PyErr.valueError "Invalid file format. Choose raw, mgf, or mgf.gz."]⟩
            | some suf =>
              match filesOpt with
              | none => Except.ok ⟨false, [], [], [], 1, [PyErr.nameError "files"]⟩
              | some files =>
                let filtered := files.filter (fun f => pyEndsWith (pyLower f) suf)
                let genLocal := allFiles.contains "generated"
                match transferAll fs (pyLower fmt) genLocal idf filtered ⟨[], []⟩ with
                | (st, some e) =>
                  Except.ok ⟨false, filtered, st.transferred, st.localFiles, 1, [e]⟩
                | (st, none) =>
                  Except.ok ⟨true, filtered, st.transferred, st.localFiles, 1, []⟩
      else Except.error PyErr.ftpError

/-- The names bound at module level in `PRIDEUtility.py`: its five imports
and the class itself.  `csv` is not among them. -/
def pruModuleNames : List String := ["FTP", "os", "gzip", "pickle", "shutil", "PRIDEUtility"]

/-- Embeds `PRIDEUtility.write_datasets_to_csv`: `open(csv_filename, "w")`
truncates the file, then `csv.DictWriter` is evaluated; the name `csv`
must resolve against the module globals.  The first component is the list
of rows (each row its single `Dataset` cell) the file holds afterwards. -/
def writeDatasetsToCsv (datasets : List String) : List String × Option PyErr :=
  if pruModuleNames.contains "csv" then ("Dataset" :: datasets, none)
  else ([], some (PyErr.nameError "csv"))

/-- Modelled from the spec: the CSV listing file the claim describes — a
header row with the single column `Dataset`, then one row per dataset. -/
def csvRowsSpec (datasets : List String) : List String := "Dataset" :: datasets

/-! ### Concrete worlds used by counterexamples and witnesses -/

/-- A dataset whose top-level listing has a `generated`-suffixed entry in
first (not last) position. -/
def fsC1 : RemoteFS where
  connectOk := true
  nlst := fun p =>
    if p = "dpath" then some ["Generated", "b.raw"]
    else if p = "dpath/generated" then some ["a.raw"]
    else none
  retr := fun _ => some true

/-- A dataset whose top-level listing has a `generated`-suffixed entry in
last position. -/
def fsC1w : RemoteFS where
  connectOk := true
  nlst := fun p =>
    if p = "w1" then some ["x.txt", "GENERATED"]
    else if p = "w1/generated" then some ["a.raw", "b.mgf"]
    else none
  retr := fun _ => some true

/-- An archive in which the middle index directory of year 2010 fails to
list while the later one would list fine. -/
def fsC2 : RemoteFS where
  connectOk := true
  nlst := fun p =>
    if p = "/p" then some ["2010"]
    else if p = "/p/2010" then some ["i1", "i2", "i3"]
    else if p = "i1" then some ["/p/2010/i1/PRD000001"]
    else if p = "i3" then some ["/p/2010/i3/PRD000002"]
    else none
  retr := fun _ => none

/-- An archive whose first index directory fails to list. -/
def fsC2w : RemoteFS where
  connectOk := true
  nlst := fun p =>
    if p = "/q" then some ["2010"]
    else if p = "/q/2010" then some ["iBad", "iAfter"]
    else if p = "iAfter" then some ["/q/2010/iAfter/PXD000002"]
    else none
  retr := fun _ => none

/-- A dataset holding one compressed file whose suffix is upper-case. -/
def fsC5 : RemoteFS where
  connectOk := true
  nlst := fun p => if p = "d5" then some ["A.MGF.GZ"] else none
  retr := fun _ => some true

/-- A dataset holding one compressed file with the lowercase suffix. -/
def fsC5w : RemoteFS where
  connectOk := true
  nlst := fun p => if p = "w5" then some ["a.mgf.gz"] else none
  retr := fun _ => some true

/-- A dataset holding one raw file. -/
def fsC7w : RemoteFS where
  connectOk := true
  nlst := fun p => if p = "w7" then some ["a.raw"] else none
  retr := fun _ => some true

/-- A remote world on which every call fails. -/
def fsNoRemote : RemoteFS where
  connectOk := true
  nlst := fun _ => none
  retr := fun _ => none

/-- The download result of the lowercase `mgf.gz` run over `fsC5w`. -/
def resC5w : DownloadResult :=
  ⟨true, ["a.mgf.gz"], ["a.mgf.gz"], ["PXD000009/a.mgf"], 1, []⟩

/-! ### Helper lemmas -/

/-- One unfolding of the lexicographic comparison. -/
theorem listCharLe_cons_iff (a b : Char) (as bs : List Char) :
    listCharLe (a :: as) (b :: bs) = true ↔
      a.toNat < b.toNat ∨ (a.toNat = b.toNat ∧ listCharLe as bs = true) := by
  simp only [listCharLe]
  by_cases h1 : a.toNat < b.toNat
  · simp [h1]
  · by_cases h2 : b.toNat < a.toNat
    · simp [h1, h2]
      omega
    · have h3 : a.toNat = b.toNat := by omega
      simp [h1, h2, h3]

/-- The code-point comparison is total. -/
theorem listCharLe_total : ∀ l m : List Char, listCharLe l m = true ∨ listCharLe m l = true := by
  intro l
  induction l with
  | nil => intro m; exact Or.inl rfl
  | cons a as ih =>
    intro m
    cases m with
    | nil => exact Or.inr rfl
    | cons b bs =>
      rcases Nat.lt_trichotomy a.toNat b.toNat with h | h | h
      · exact Or.inl ((listCharLe_cons_iff a b as bs).mpr (Or.inl h))
      · rcases ih bs with h2 | h2
        · exact Or.inl ((listCharLe_cons_iff a b as bs).mpr (Or.inr ⟨h, h2⟩))
        · exact Or.inr ((listCharLe_cons_iff b a bs as).mpr (Or.inr ⟨h.symm, h2⟩))
      · exact Or.inr ((listCharLe_cons_iff b a bs as).mpr (Or.inl h))

/-- The code-point comparison is transitive. -/
theorem listCharLe_trans : ∀ l m n : List Char,
    listCharLe l m = true → listCharLe m n = true → listCharLe l n = true := by
  intro l
  induction l with
  | nil => intro m n _ _; rfl
  | cons a as ih =>
    intro m n h1 h2
    cases m with
    | nil => simp [listCharLe] at h1
    | cons b bs =>
      cases n with
      | nil => simp [listCharLe] at h2
      | cons c cs =>
        rw [listCharLe_cons_iff] at h1 h2 ⊢
        rcases h1 with h1 | ⟨h1e, h1r⟩
        · rcases h2 with h2 | ⟨h2e, _⟩
          · exact Or.inl (by omega)
          · exact Or.inl (by omega)
        · rcases h2 with h2 | ⟨h2e, h2r⟩
          · exact Or.inl (by omega)
          · exact Or.inr ⟨by omega, ih bs cs h1r h2r⟩

instance : IsTotal String strLeRel := ⟨fun a b => listCharLe_total a.data b.data⟩

instance : IsTrans String strLeRel := ⟨fun a b c => listCharLe_trans a.data b.data c.data⟩

/-- Membership in `addFile`. -/
theorem mem_addFile {l : List String} {x y : String} :
    y ∈ addFile l x ↔ y ∈ l ∨ y = x := by
  unfold addFile
  by_cases h : x ∈ l
  · simp only [if_pos h]
    constructor
    · exact Or.inl
    · rintro (h2 | rfl)
      · exact h2
      · exact h
  · simp [if_neg h, List.mem_append]

/-- The local-file list stays duplicate-free under `addFile`. -/
theorem nodup_addFile {l : List String} {x : String} (h : l.Nodup) : (addFile l x).Nodup := by
  unfold addFile
  by_cases hx : x ∈ l
  · simpa [if_pos hx]
  · simp [if_neg hx, List.nodup_append, h, hx]

/-- Dropping the three trailing characters of a name that ends with the
lowercase `.mgf.gz` yields a name that no longer does. -/
theorem pyEndsWith_mgfgz_dropRight (s : String) (h : pyEndsWith s ".mgf.gz" = true) :
    pyEndsWith (pyDropRight s 3) ".mgf.gz" = false := by
  have hdata : ".mgf.gz".data = ['.', 'm', 'g', 'f', '.', 'g', 'z'] := rfl
  unfold pyEndsWith at h
  rw [List.isSuffixOf_iff_suffix] at h
  obtain ⟨t, ht⟩ := h
  have hlen : s.data.length = t.length + 7 := by
    rw [← ht, List.length_append, hdata]
    rfl
  have htake : s.data.take (s.data.length - 3) = t ++ ['.', 'm', 'g', 'f'] := by
    have hn : s.data.length - 3 = t.length + 4 := by omega
    rw [hn, ← ht, List.take_append_eq_append_take]
    have h1 : t.take (t.length + 4) = t := List.take_of_length_le (by omega)
    have h2 : t.length + 4 - t.length = 4 := by omega
    rw [h1, h2, hdata]
    rfl
  show List.isSuffixOf ".mgf.gz".data (s.data.take (s.data.length - 3)) = false
  rw [htake, ← Bool.not_eq_true, List.isSuffixOf_iff_suffix]
  rintro ⟨u, hu⟩
  rw [hdata] at hu
  have h1 := congrArg List.getLast? hu
  rw [List.getLast?_append_of_ne_nil u (by simp),
    List.getLast?_append_of_ne_nil t (by simp)] at h1
  simp at h1

/-- Structural reading of the `re.match` test: the list starts with `P`,
`R` or `X`, `D` and six digits, followed by anything. -/
theorem idMatchList_iff (l : List Char) :
    idMatchList l = true ↔
      ∃ x ds rest, l = 'P' :: x :: 'D' :: (ds ++ rest) ∧ (x = 'R' ∨ x = 'X') ∧
        ds.length = 6 ∧ ∀ c ∈ ds, c.isDigit = true := by
  cases l with
  | nil => simp [idMatchList]
  | cons p l1 =>
    cases l1 with
    | nil => simp [idMatchList]
    | cons x l2 =>
      cases l2 with
      | nil => simp [idMatchList]
      | cons d rest =>
        simp only [idMatchList, Bool.and_eq_true, beq_iff_eq, Bool.or_eq_true,
          List.all_eq_true]
        constructor
        · rintro ⟨⟨⟨⟨hp, hx⟩, hd⟩, hlen⟩, hdig⟩
          subst hp; subst hd
          exact ⟨x, rest.take 6, rest.drop 6, by rw [List.take_append_drop], hx,
            hlen, hdig⟩
        · rintro ⟨x2, ds, rest2, heq, hx2, hlen2, hdig2⟩
          obtain ⟨hp, hx, hd, hr⟩ : p = 'P' ∧ x = x2 ∧ d = 'D' ∧ rest = ds ++ rest2 := by
            simpa using heq
          subst hp; subst hx; subst hd; subst hr
          have htake : (ds ++ rest2).take 6 = ds := List.take_left' hlen2
          refine ⟨⟨⟨⟨rfl, hx2⟩, rfl⟩, ?_⟩, ?_⟩
          · rw [htake, hlen2]
          · rw [htake]; exact hdig2

/-- The string form of `idMatchList_iff`. -/
theorem matchesIdAtStart_iff_shape (t : String) :
    matchesIdAtStart t = true ↔ IdPrefixShape t :=
  idMatchList_iff t.data

/-- When the last entry of the traversed listing ends with `generated`
(case-insensitively) and the `generated` subdirectory lists successfully,
the selection loop ends with the subdirectory listing, whatever came
before. -/
theorem selectFilesAux_last_generated (fs : RemoteFS) (genPath : String)
    (allFiles g : List String) (hg : fs.nlst genPath = some g) :
    ∀ (pre : List String) (z : String) (acc : Option (List String)),
      pyEndsWith (pyLower z) "generated" = true →
      selectFilesAux fs genPath allFiles (pre ++ [z]) acc = (some g, none) := by
  intro pre
  induction pre with
  | nil =>
    intro z acc hz
    simp [selectFilesAux, hz, hg]
  | cons f pre ih =>
    intro z acc hz
    by_cases hf : pyEndsWith (pyLower f) "generated" = true
    · simp only [List.cons_append, selectFilesAux, hf, if_pos, hg]
      exact ih z (some g) hz
    · simp only [List.cons_append, selectFilesAux, hf, if_neg, Bool.false_eq_true,
        if_false]
      exact ih z (some allFiles) hz

/-- One successful `mgf.gz` transfer step keeps the local directory free of
files ending in the lowercase `.mgf.gz` (and duplicate-free): a file with
that suffix is decompressed and removed in the same step. -/
theorem transferOne_none_clean (fs : RemoteFS) (genLocal : Bool) (localDir : String)
    (st : LoopState) (f : String) (st2 : LoopState)
    (hnd : st.localFiles.Nodup)
    (hcl : ∀ g ∈ st.localFiles, pyEndsWith g ".mgf.gz" = false)
    (hto : transferOne fs "mgf.gz" genLocal localDir st f = (st2, none)) :
    st2.localFiles.Nodup ∧ ∀ g ∈ st2.localFiles, pyEndsWith g ".mgf.gz" = false := by
  unfold transferOne at hto
  set lf := if genLocal then pyJoin (pyJoin localDir "generated") f else pyJoin localDir f
    with hlf
  by_cases hdir : pyDirname lf = localDir
  · rw [if_pos hdir] at hto
    cases hr : fs.retr f with
    | none =>
      rw [hr] at hto
      simp [Prod.ext_iff] at hto
    | some gzOk =>
      rw [hr] at hto
      cases hend : pyEndsWith lf ".mgf.gz" with
      | true =>
        cases gzOk with
        | false => simp [hend, Prod.ext_iff] at hto
        | true =>
          simp only [hend, beq_self_eq_true, Bool.and_self, if_true, Prod.mk.injEq,
            and_true] at hto
          have hst2 : st2.localFiles =
              (addFile (addFile st.localFiles lf) (pyDropRight lf 3)).erase lf := by
            rw [← hto]
          have hnd1 : (addFile (addFile st.localFiles lf) (pyDropRight lf 3)).Nodup :=
            nodup_addFile (nodup_addFile hnd)
          constructor
          · rw [hst2]; exact hnd1.erase lf
          · intro g hg
            rw [hst2, hnd1.mem_erase_iff] at hg
            obtain ⟨hne, hg⟩ := hg
            rw [mem_addFile] at hg
            rcases hg with hg | rfl
            · rw [mem_addFile] at hg
              rcases hg with hg | rfl
              · exact hcl g hg
              · exact absurd rfl hne
            · exact pyEndsWith_mgfgz_dropRight lf hend
      | false =>
        simp only [hend, beq_self_eq_true, Bool.and_false, if_false, Bool.false_eq_true,
          Prod.mk.injEq, and_true] at hto
        have hst2 : st2.localFiles = addFile st.localFiles lf := by
          rw [← hto]
        constructor
        · rw [hst2]; exact nodup_addFile hnd
        · intro g hg
          rw [hst2, mem_addFile] at hg
          rcases hg with hg | rfl
          · exact hcl g hg
          · exact hend
  · rw [if_neg hdir] at hto
    simp [Prod.ext_iff] at hto

/-- A successful `mgf.gz` transfer loop leaves no local file ending in the
lowercase `.mgf.gz`. -/
theorem transferAll_mgfgz_clean (fs : RemoteFS) (genLocal : Bool) (localDir : String) :
    ∀ (files : List String) (st st' : LoopState),
      st.localFiles.Nodup →
      (∀ g ∈ st.localFiles, pyEndsWith g ".mgf.gz" = false) →
      transferAll fs "mgf.gz" genLocal localDir files st = (st', none) →
      ∀ g ∈ st'.localFiles, pyEndsWith g ".mgf.gz" = false := by
  intro files
  induction files with
  | nil =>
    intro st st' hnd hcl ht
    simp only [transferAll, Prod.mk.injEq] at ht
    rw [← ht.1]
    exact hcl
  | cons f rest ih =>
    intro st st' hnd hcl ht
    simp only [transferAll] at ht
    rcases hto : transferOne fs "mgf.gz" genLocal localDir st f with ⟨st2, e2⟩
    rw [hto] at ht
    cases e2 with
    | some e => simp [Prod.ext_iff] at ht
    | none =>
      obtain ⟨hnd2, hcl2⟩ :=
        transferOne_none_clean fs genLocal localDir st f st2 hnd hcl hto
      exact ih st2 st' hnd2 hcl2 ht

/-! ### Claim theorems -/

/-- C1 (counterexample): a top-level listing whose `generated`-suffixed
entry is first rather than last.  The entry `"Generated"` ends with
`generated` case-insensitively, the `generated` subdirectory lists as
`["a.raw"]`, yet `download_dataset` filters and transfers `b.raw` from the
top-level listing — not from the subdirectory, which does not contain it —
because the later loop iteration reassigned `files` back to the top-level
listing. -/
theorem downloadDataset_generated_nonlast_counterexample :
    downloadDataset fsC1 (some [("PXD000010", "dpath")]) "PXD000010" "raw" =
      Except.ok ⟨true, ["b.raw"], ["b.raw"], ["PXD000010/b.raw"], 1, []⟩ ∧
    pyEndsWith (pyLower "Generated") "generated" = true ∧
    fsC1.nlst "dpath/generated" = some ["a.raw"] ∧
    ¬ ("b.raw" ∈ (["a.raw"] : List String)) :=
  ⟨rfl, by decide, rfl, by decide⟩

/-- C1 (amended): which listing `download_dataset` filters from is decided
by the last entry of the top-level listing alone.  When the last entry ends
with `generated` (case-insensitively) and the `generated` subdirectory
lists successfully, the filenames filtered (and handed to the transfer
loop) are those of the subdirectory listing, for every accepted format and
whatever entries precede it. -/
theorem downloadDataset_generated_decided_by_last_entry
    (fs : RemoteFS) (m : List (String × String)) (idf fmt dsPath suf : String)
    (pre g : List String) (z : String)
    (hm : dictGet m idf = some dsPath) (hne : ¬ dsPath = "") (hc : fs.connectOk = true)
    (hl : fs.nlst dsPath = some (pre ++ [z]))
    (hz : pyEndsWith (pyLower z) "generated" = true)
    (hg : fs.nlst (pyJoin dsPath "generated") = some g)
    (hfmt : suffixFor (pyLower fmt) = some suf) :
    ∃ r, downloadDataset fs (some m) idf fmt = Except.ok r ∧
      r.filtered = g.filter (fun f => pyEndsWith (pyLower f) suf) := by
  have hsel : selectFiles fs dsPath (pre ++ [z]) = (some g, none) :=
    selectFilesAux_last_generated fs _ _ g hg pre z none hz
  simp only [downloadDataset, hm, hc, hl, hsel, hfmt, if_neg hne, if_true]
  rcases htr : transferAll fs (pyLower fmt) ((pre ++ [z]).contains "generated") idf
      (g.filter (fun f => pyEndsWith (pyLower f) suf)) ⟨[], []⟩ with ⟨st, e⟩
  cases e with
  | none => exact ⟨_, rfl, rfl⟩
  | some e => exact ⟨_, rfl, rfl⟩

/-- C1 (witness): with the listing `["x.txt", "GENERATED"]` and the
`generated` subdirectory listing `["a.raw", "b.mgf"]`, a `raw` download
filters from the subdirectory listing. -/
theorem downloadDataset_generated_decided_by_last_entry_witness :
    ∃ r, downloadDataset fsC1w (some [("PXD000011", "w1")]) "PXD000011" "raw" =
        Except.ok r ∧
      r.filtered =
        (["a.raw", "b.mgf"] : List String).filter (fun f => pyEndsWith (pyLower f) ".raw") :=
  downloadDataset_generated_decided_by_last_entry fsC1w [("PXD000011", "w1")]
    "PXD000011" "raw" "w1" ".raw" ["x.txt"] ["a.raw", "b.mgf"] "GENERATED"
    rfl (by decide) rfl rfl (by decide) rfl rfl

/-- C2 (counterexample): in `fsC2` the year 2010 has index directories
`i1`, `i2`, `i3`; `i1` lists one dataset, `i2` fails, and `i3` would list
`PRD000002`.  The claim predicts a result covering `i1` and `i3`; the code
stops at `i2`, so `PRD000002` is missing from the index even though its
branch lists fine (and even the `i1` entry recorded before the failure is
returned, not an empty per-branch result merged with the rest). -/
theorem loadDatasetPaths_branch_counterexample :
    loadDatasetPaths fsC2 "/p" =
      Except.ok ([("PRD000001", "/p/2010/i1/PRD000001")], some PyErr.ftpError) ∧
    fsC2.nlst "i3" = some ["/p/2010/i3/PRD000002"] ∧
    dictGet [("PRD000001", "/p/2010/i1/PRD000001")] "PRD000002" = none :=
  ⟨rfl, rfl, rfl⟩

/-- C2 (amended): a remote-listing failure anywhere in the walk is caught
and logged rather than propagated, and the datasets recorded before it are
kept — but the walk then stops: with a failing first index directory, the
whole remaining walk is abandoned whatever directories follow, and the
index comes back as the entries accumulated so far. -/
theorem loadDatasetPaths_stops_walk (fs : RemoteFS) (ftpPath idx : String)
    (rest : List String)
    (hy : fs.nlst ftpPath = some ["2010"])
    (hi : fs.nlst (ftpPath ++ "/" ++ "2010") = some (idx :: rest))
    (hfail : fs.nlst idx = none) (hc : fs.connectOk = true) :
    (∀ acc, walkIndices fs (idx :: rest) acc = (acc, some PyErr.ftpError)) ∧
    loadDatasetPaths fs ftpPath = Except.ok ([], some PyErr.ftpError) := by
  have hw : ∀ acc, walkIndices fs (idx :: rest) acc = (acc, some PyErr.ftpError) := by
    intro acc
    simp [walkIndices, hfail]
  refine ⟨hw, ?_⟩
  simp [loadDatasetPaths, hc, hy, walkYears, hi, hw]

/-- C2 (witness): a concrete failing first index with a listable second
one; the accumulated entries survive and nothing after the failure is
recorded. -/
theorem loadDatasetPaths_stops_walk_witness :
    walkIndices fsC2w ["iBad", "iAfter"] [("K", "V")] =
      ([("K", "V")], some PyErr.ftpError) ∧
    loadDatasetPaths fsC2w "/q" = Except.ok ([], some PyErr.ftpError) := by
  have h := loadDatasetPaths_stops_walk fsC2w "/q" "iBad" ["iAfter"] rfl rfl rfl rfl
  exact ⟨h.1 [("K", "V")], h.2⟩

/-- C3 (counterexample): with a cache file present (content `"old"`), no
fresh fetch requested, and the network ready to answer `"new"`, the code
returns the old cache, leaves the cache unchanged, and never attempts the
fetch — the claim says the fetch is still attempted first and would have
overwritten the cache with `"new"`. -/
theorem metadata_cached_skips_fetch_counterexample :
    metadata false (some "old") (FetchOutcome.success "new") =
      Except.ok ⟨"old", some "old", false⟩ ∧
    (MetaResult.mk "old" (some "old") false).fetchAttempted = false ∧
    ¬ (MetaResult.mk "old" (some "old") false).cache = some "new" :=
  ⟨rfl, rfl, by decide⟩

/-- C3 (amended): the full cache policy of `metadata`.  With a cache
present and no fetch requested, the cache is read directly and no fetch is
attempted; with a fetch requested or no cache present, the fetch runs and
overwrites the cache on success; a connection failure falls back to the
cache when one exists and propagates when none does; an HTTP error
propagates regardless. -/
theorem metadata_eq_amended (fetch : Bool) (cache : Option String) (net : FetchOutcome) :
    metadata fetch cache net = metadataAmended fetch cache net := by
  cases cache <;> cases fetch <;> cases net <;> rfl

/-- C4 (counterexample): `PXD123456XY` is not of the form `P[RX]D` plus six
digits (it carries two further characters), yet validation accepts it,
because `re.match` anchors at the start only. -/
theorem validateId_prefix_counterexample :
    validateId "PXD123456XY" = Except.ok "PXD123456XY" ∧
    isFullIdentifier "PXD123456XY" = false :=
  ⟨rfl, by decide⟩

/-- C4 (amended): validation succeeds exactly on the strings whose
uppercased form begins with `P`, `R` or `X`, `D` and six digits — further
trailing characters are accepted — returning the uppercased input; every
other string fails with the invalid-format error. -/
theorem validateId_characterization (s : String) :
    (validateId s = Except.ok (pyUpper s) ↔ IdPrefixShape (pyUpper s)) ∧
    (validateId s = Except.error "Malformed PRIDE identifier." ↔
      ¬ IdPrefixShape (pyUpper s)) := by
  by_cases hm : matchesIdAtStart (pyUpper s) = true
  · have hs := (matchesIdAtStart_iff_shape (pyUpper s)).mp hm
    constructor
    · simp [validateId, hm, hs]
    · simp [validateId, hm, hs]
  · have hs : ¬ IdPrefixShape (pyUpper s) := fun hsh =>
      hm ((matchesIdAtStart_iff_shape (pyUpper s)).mpr hsh)
    constructor
    · simp [validateId, hm, hs]
    · simp [validateId, hm, hs]

/-- C5 (counterexample): the dataset holds the single file `A.MGF.GZ`.  The
case-insensitive filter transfers it and the call returns true, but the
decompression test is case-sensitive, so the transferred file is neither
decompressed nor removed: the local directory still holds a `.mgf.gz` file
(up to case). -/
theorem downloadDataset_uppercase_gz_counterexample :
    downloadDataset fsC5 (some [("PXD000002", "d5")]) "PXD000002" "mgf.gz" =
      Except.ok ⟨true, ["A.MGF.GZ"], ["A.MGF.GZ"], ["PXD000002/A.MGF.GZ"], 1, []⟩ ∧
    pyEndsWith (pyLower "PXD000002/A.MGF.GZ") ".mgf.gz" = true :=
  ⟨rfl, by decide⟩

/-- C5 (amended): whenever an `mgf.gz` download returns true, every
transferred file whose local name ends with the lowercase `.mgf.gz` has
been decompressed in place and removed, so no local file ends with the
exact lowercase `.mgf.gz`; files matching the filter only up to case
remain compressed. -/
theorem downloadDataset_mgfgz_no_residue (fs : RemoteFS)
    (dps : Option (List (String × String))) (idf fmt : String) (r : DownloadResult)
    (hfmt : pyLower fmt = "mgf.gz")
    (hok : downloadDataset fs dps idf fmt = Except.ok r)
    (hs : r.success = true) :
    ∀ f ∈ r.localFiles, pyEndsWith f ".mgf.gz" = false := by
  cases dps with
  | none => simp [downloadDataset] at hok
  | some m =>
    simp only [downloadDataset] at hok
    cases hg : dictGet m idf with
    | none =>
      rw [hg] at hok
      simp only [Except.ok.injEq] at hok
      rw [← hok] at hs
      simp at hs
    | some dsPath =>
      rw [hg] at hok
      simp only at hok
      by_cases hne : dsPath = ""
      · rw [if_pos hne] at hok
        simp only [Except.ok.injEq] at hok
        rw [← hok] at hs
        simp at hs
      · rw [if_neg hne] at hok
        cases hco : fs.connectOk with
        | false => rw [hco] at hok; simp at hok
        | true =>
          rw [hco] at hok
          simp only [if_true] at hok
          cases hl : fs.nlst dsPath with
          | none =>
            rw [hl] at hok
            simp only [Except.ok.injEq] at hok
            rw [← hok] at hs
            simp at hs
          | some allFiles =>
            rw [hl] at hok
            simp only at hok
            rcases hsel : selectFiles fs dsPath allFiles with ⟨fo, se⟩
            rw [hsel] at hok
            cases se with
            | some e =>
              simp only [Except.ok.injEq] at hok
              rw [← hok] at hs
              simp at hs
            | none =>
              simp only at hok
              rw [hfmt] at hok
              rw [show suffixFor "mgf.gz" = some ".mgf.gz" from rfl] at hok
              simp only at hok
              cases fo with
              | none =>
                simp only [Except.ok.injEq] at hok
                rw [← hok] at hs
                simp at hs
              | some files =>
                simp only at hok
                rcases htr : transferAll fs "mgf.gz" (allFiles.contains "generated") idf
                    (files.filter (fun f => pyEndsWith (pyLower f) ".mgf.gz")) ⟨[], []⟩
                  with ⟨st, e⟩
                rw [htr] at hok
                cases e with
                | some e =>
                  simp only [Except.ok.injEq] at hok
                  rw [← hok] at hs
                  simp at hs
                | none =>
                  simp only [Except.ok.injEq] at hok
                  rw [← hok]
                  exact transferAll_mgfgz_clean fs (allFiles.contains "generated") idf
                    (files.filter (fun f => pyEndsWith (pyLower f) ".mgf.gz"))
                    ⟨[], []⟩ st List.nodup_nil (by simp) htr

/-- C5 (witness): a lowercase `a.mgf.gz` download succeeds, its local
directory holds only the decompressed `a.mgf`, and the theorem applies. -/
theorem downloadDataset_mgfgz_no_residue_witness :
    downloadDataset fsC5w (some [("PXD000009", "w5")]) "PXD000009" "mgf.gz" =
      Except.ok resC5w ∧
    (∀ f ∈ resC5w.localFiles, pyEndsWith f ".mgf.gz" = false) :=
  ⟨rfl, downloadDataset_mgfgz_no_residue fsC5w (some [("PXD000009", "w5")])
    "PXD000009" "mgf.gz" resC5w rfl rfl rfl⟩

/-- C6 (confirmed): `url` resolution equals its specification — probe the
ordered rewrite candidates (the first of which is the URL itself, the
identity rewrite being first), return the first reachable one, and after
all candidates fail re-raise the failure of the last probe. -/
theorem resolveUrl_first_reachable {E : Type} (probe : String → Option E) (url : String) :
    resolveUrl probe url = urlSpec probe url ∧ (urlCandidates url).head? = some url := by
  constructor
  · simp only [resolveUrl, prideFixes, resolveUrlAux, urlSpec, urlCandidates]
    cases h0 : probe (url.replace "" "") with
    | none => simp [List.find?, h0]
    | some e0 =>
      cases h1 : probe ((url.replace "" "").replace "/data/" "-") with
      | none => simp [List.find?, h0, h1]
      | some e1 =>
        cases h2 : probe (((url.replace "" "").replace "/data/" "-").replace "pride." "")
          with
        | none => simp [List.find?, h0, h1, h2]
        | some e2 => simp [List.find?, List.getLastD, h0, h1, h2]
  · rfl

/-- C7 (confirmed): when the dataset resolves and its listing phase
succeeds, any format other than `raw`, `mgf`, `mgf.gz` (case-insensitive)
makes `download_dataset` fail with the invalid-format `ValueError` — which
it catches, prints, and converts into a false return — with no file
filtered, transferred, or written. -/
theorem downloadDataset_invalid_format (fs : RemoteFS) (m : List (String × String))
    (idf fmt dsPath : String) (allFiles : List String) (fo : Option (List String))
    (hm : dictGet m idf = some dsPath) (hne : ¬ dsPath = "") (hc : fs.connectOk = true)
    (hl : fs.nlst dsPath = some allFiles)
    (hsel : selectFiles fs dsPath allFiles = (fo, none))
    (hfmt : suffixFor (pyLower fmt) = none) :
    downloadDataset fs (some m) idf fmt =
      Except.ok ⟨false, [], [], [], 1,
        [PyErr.valueError "Invalid file format. Choose raw, mgf, or mgf.gz."]⟩ := by
  simp only [downloadDataset, hm, hc, hl, hsel, hfmt, if_neg hne, if_true]

/-- C7 (witness): format `"exe"` on a resolvable dataset with one raw
file. -/
theorem downloadDataset_invalid_format_witness :
    downloadDataset fsC7w (some [("PXD000004", "w7")]) "PXD000004" "exe" =
      Except.ok ⟨false, [], [], [], 1,
        [PyErr.valueError "Invalid file format. Choose raw, mgf, or mgf.gz."]⟩ :=
  downloadDataset_invalid_format fsC7w [("PXD000004", "w7")] "PXD000004" "exe" "w7"
    ["a.raw"] (some ["a.raw"]) rfl (by decide) rfl rfl rfl rfl

/-- C8 (counterexample): the segment `PXD000001XYZ` is not an identifier
(the six digits are followed by residue), yet `list_projects` keeps it,
because `re.match` anchors at the start only. -/
theorem listProjects_prefix_counterexample :
    listProjects ["pride/PXD000001XYZ"] = ["PXD000001XYZ"] ∧
    isFullIdentifier "PXD000001XYZ" = false :=
  ⟨by decide, by decide⟩

/-- C8 (amended): `list_projects` returns, sorted ascending by code point,
exactly the trailing path segments of the input lines whose prefix matches
the identifier pattern (`re.match` semantics: residue after the six digits
is allowed). -/
theorem listProjects_sorted_mem (lines : List String) :
    (listProjects lines).Sorted strLeRel ∧
    ∀ p, p ∈ listProjects lines ↔
      p ∈ lines.map lastSegment ∧ matchesIdAtStart p = true := by
  constructor
  · exact List.sorted_insertionSort strLeRel _
  · intro p
    simp only [listProjects]
    rw [(List.perm_insertionSort strLeRel _).mem_iff, List.mem_filter]

/-- C9 (code bug): `csv` is never imported by `PRIDEUtility.py`, so every
call of `write_datasets_to_csv` raises `NameError` right after truncating
the file: the file is left empty, never equal to the header-plus-rows
layout the claim (and the function's own docstring) describes. -/
theorem writeDatasetsToCsv_missing_import (datasets : List String) :
    writeDatasetsToCsv datasets = ([], some (PyErr.nameError "csv")) ∧
    csvRowsSpec datasets ≠ [] := by
  refine ⟨rfl, ?_⟩
  simp [csvRowsSpec]

/-- C10 (confirmed): with the never-built sentinel (`dataset_paths` still
`None`), `download_dataset` raises `AttributeError` uncaught instead of
returning false; with a built index lacking the identifier, it returns
false having opened no FTP session (and having transferred nothing). -/
theorem downloadDataset_index_sentinel (fs : RemoteFS) (m : List (String × String))
    (idf fmt : String) (hid : dictGet m idf = none) :
    downloadDataset fs none idf fmt = Except.error PyErr.attributeError ∧
    downloadDataset fs (some m) idf fmt = Except.ok ⟨false, [], [], [], 0, []⟩ := by
  refine ⟨rfl, ?_⟩
  simp [downloadDataset, hid]

/-- C10 (witness): a concrete absent identifier. -/
theorem downloadDataset_index_sentinel_witness :
    downloadDataset fsNoRemote none "PXD000001" "raw" =
      Except.error PyErr.attributeError ∧
    downloadDataset fsNoRemote (some [("PXD000003", "p3")]) "PXD000001" "raw" =
      Except.ok ⟨false, [], [], [], 0, []⟩ :=
  downloadDataset_index_sentinel fsNoRemote [("PXD000003", "p3")] "PXD000001" "raw" rfl

end MSDataCurator
